import Mathlib

/-!
Shallow embedding of the re2 NIF marshalling layer (c_src/re2_nif.cpp).

Erlang terms are modelled by the inductive `Term`; the NIF term-inspection
primitives (`enif_get_int`, `enif_is_identical` with an atom constant,
`enif_get_list_cell` iteration over a proper list, `enif_get_tuple`,
`enif_is_empty_list`, `enif_get_string`) become total Lean functions on
`Term`.  The external RE2 engine is an opaque collaborator and is modelled
by the structure `RE2` carrying exactly the observations the NIF makes of
it: the `ok` flag, the structured compile error (code, message, argument),
`NumberOfCapturingGroups`, `NamedCapturingGroups`, the full capture-slot
assignment produced by a successful `Match` at a given offset, and the
non-overlapping match occurrences used by `Replace`/`GlobalReplace`.
Host-runtime allocation (`enif_alloc_binary` in `mres`, `enif_alloc` in
`alloc_atom`/`alloc_str`) can fail; this is modelled by an oracle
`alloc : Nat → Bool` consulted at successive allocation attempts of the
shaping phase, with a counter threaded through in program order.
-/

/-- Erlang term model: atoms, machine integers, tuples, proper lists,
binaries (byte sequences).  Atoms are assumed latin1-representable, so
`enif_get_atom` on an atom always succeeds. -/
inductive Term where
  | atom : String → Term
  | int : Int → Term
  | tuple : List Term → Term
  | list : List Term → Term
  | binary : List Nat → Term

/-- Test whether a term is identical to a given atom constant
(`enif_is_identical(H, a_...)`). -/
def is_atom_named : Term → String → Bool
  | .atom a, s => a == s
  | _, _ => false

/-- Test whether a term is a tuple (`enif_get_tuple` succeeds). -/
def is_tuple : Term → Bool
  | .tuple _ => true
  | _ => false

/-- Test whether a term is an atom (`enif_is_atom`). -/
def is_atom : Term → Bool
  | .atom _ => true
  | _ => false

/-- Model of `enif_get_int`: succeeds exactly on integer terms that fit in
a C `int` (32 bits). -/
def enif_get_int : Term → Option Int
  | .int n => if -2147483648 ≤ n ∧ n < 2147483648 then some n else none
  | _ => none

/-- Cells of a proper list term; any other term has no cells, matching the
`enif_get_list_cell` iteration pattern which simply stops. -/
def listCells : Term → List Term
  | .list xs => xs
  | _ => []

/-- Model of `enif_get_string` (latin1): a proper list is a string iff all
its elements are character codes in 1..255. -/
def latin1_chars : List Term → Option (List Char)
  | [] => some []
  | .int c :: rest =>
    if 0 < c ∧ c < 256 then (latin1_chars rest).map (Char.ofNat c.toNat :: ·)
    else none
  | _ => none

/-- Compile options record (`struct compileoptions` / `re2::RE2::Options`):
only the fields the NIF touches, with RE2's defaults. -/
structure compileoptions where
  case_sensitive : Bool := true
  max_mem : Int := 8388608
deriving DecidableEq

/-- Value-spec enumeration (`matchoptions::value_spec`). -/
inductive value_spec where
  | VS_ALL
  | VS_ALL_BUT_FIRST
  | VS_FIRST
  | VS_NONE
  | VS_VLIST
deriving DecidableEq

/-- Capture-result shape enumeration (`matchoptions::capture_type`). -/
inductive capture_type where
  | CT_INDEX
  | CT_LIST
  | CT_BINARY
deriving DecidableEq

/-- Match options record (`struct matchoptions`). -/
structure matchoptions where
  caseless : Bool
  offset : Int
  vs : value_spec
  ct : capture_type
  vlist : Term

/-- The `matchoptions` constructor's initial state: case-sensitive, offset
0, value-spec ALL, shape BINARY, empty value list. -/
def matchoptions.init : matchoptions :=
  { caseless := false, offset := 0, vs := .VS_ALL, ct := .CT_BINARY
    vlist := Term.list [] }

/-- Replace options record (`struct replaceoptions`). -/
structure replaceoptions where
  global : Bool := false
deriving DecidableEq

/-- Compile option parser (`parse_compile_options`): fold entries left to
right; the bare atom `caseless` clears case sensitivity; a 2-tuple tagged
`max_mem` sets the memory budget and fails if its payload is not a machine
integer; any other tuple is skipped; any other term fails. -/
def parse_compile_options : List Term → compileoptions → Option compileoptions
  | [], opts => some opts
  | h :: t, opts =>
    match h with
    | .atom a =>
      if a = "caseless" then
        parse_compile_options t { opts with case_sensitive := false }
      else none
    | .tuple [tag, payload] =>
      if is_atom_named tag "max_mem" then
        match enif_get_int payload with
        | some m => parse_compile_options t { opts with max_mem := m }
        | none => none
      else parse_compile_options t opts
    | .tuple _ => parse_compile_options t opts
    | _ => none

/-- The ValueSpec classification step of `parse_match_capture_options`:
returns the updated options and the `vs_set` flag.  Any atom sets
`vs_set`, even one that is not a recognized value-spec (in which case the
value-spec field keeps its previous value); any non-atom term other than
the empty list is taken as an explicit value list. -/
def classify_vs (opts : matchoptions) (v : Term) : matchoptions × Bool :=
  match v with
  | .atom a =>
    (if a = "all" then { opts with vs := .VS_ALL }
     else if a = "all_but_first" then { opts with vs := .VS_ALL_BUT_FIRST }
     else if a = "first" then { opts with vs := .VS_FIRST }
     else if a = "none" then { opts with vs := .VS_NONE }
     else opts, true)
  | .list [] => (opts, false)
  | w => ({ opts with vlist := w, vs := .VS_VLIST }, true)

/-- The shape application step of `parse_match_capture_options`: `index`
and `binary` set the capture type, any other shape term changes nothing. -/
def apply_shape (o : matchoptions) (shape : Term) : matchoptions :=
  if is_atom_named shape "index" then { o with ct := .CT_INDEX }
  else if is_atom_named shape "binary" then { o with ct := .CT_BINARY }
  else o

/-- Capture sub-option parser (`parse_match_capture_options`): classify
the ValueSpec, and if a Shape component is present (arity 3) and the
ValueSpec was classified (`vs_set`), apply the shape. -/
def parse_match_capture_options (opts : matchoptions) (v : Term)
    (sh : Option Term) : matchoptions :=
  let r := classify_vs opts v
  match sh, r.2 with
  | some shape, true => apply_shape r.1 shape
  | _, _ => r.1

/-- Match option parser (`parse_match_options`): the bare atom `caseless`;
2- or 3-tuples tagged `offset` (integer payload required) or `capture`
(delegated to the capture sub-parser); other tuples are skipped; any other
term fails. -/
def parse_match_options : List Term → matchoptions → Option matchoptions
  | [], opts => some opts
  | h :: t, opts =>
    match h with
    | .atom a =>
      if a = "caseless" then
        parse_match_options t { opts with caseless := true }
      else none
    | .tuple ts =>
      if ts.length = 2 ∨ ts.length = 3 then
        match ts with
        | tag :: payload :: rest =>
          if is_atom_named tag "offset" then
            match enif_get_int payload with
            | some n => parse_match_options t { opts with offset := n }
            | none => none
          else if is_atom_named tag "capture" then
            parse_match_options t
              (parse_match_capture_options opts payload rest.head?)
          else parse_match_options t opts
        | _ => parse_match_options t opts
      else parse_match_options t opts
    | _ => none

/-- Replace option parser (`parse_replace_options`): the bare atom `global`
is the only accepted entry; anything else fails. -/
def parse_replace_options : List Term → replaceoptions → Option replaceoptions
  | [], opts => some opts
  | h :: t, opts =>
    if is_atom_named h "global" then
      parse_replace_options t { opts with global := true }
    else none

/-- Model of `re2::StringPiece` as seen by the NIF: a capture slot.
`isNull` models a null `data()` pointer (a group that did not participate
in the match); `off` is the byte offset of `data()` within the subject and
`len` is `size()`.  `empty()` is `len = 0`, which holds both for null
pieces and for zero-length participating matches. -/
structure StringPiece where
  isNull : Bool
  off : Nat
  len : Nat
deriving DecidableEq

/-- The default-constructed empty `StringPiece` used for unfound value ids. -/
def sp_empty : StringPiece := { isNull := true, off := 0, len := 0 }

/-- Bytes of a capture slot within subject `s` (what `memcpy` copies). -/
def extract (s : List Nat) (m : StringPiece) : List Nat :=
  (s.drop m.off).take m.len

/-- RE2 error-code enumeration as consumed by the NIF's `re2error` switch;
`other` stands for any engine code outside the handled cases, which the
switch sends to its default branch. -/
inductive re2_error_code where
  | NoError
  | ErrorInternal
  | ErrorBadEscape
  | ErrorBadCharClass
  | ErrorBadCharRange
  | ErrorMissingBracket
  | ErrorMissingParen
  | ErrorTrailingBackslash
  | ErrorRepeatArgument
  | ErrorRepeatSize
  | ErrorRepeatOp
  | ErrorBadPerlOp
  | ErrorBadUTF8
  | ErrorBadNamedCapture
  | ErrorPatternTooLarge
  | other
deriving DecidableEq

/-- The `re2error` code mapping: engine error code to error atom; the
default branch (including `NoError`) yields the `no_error` atom. -/
def re2error_atom : re2_error_code → String
  | .ErrorInternal => "internal"
  | .ErrorBadEscape => "bad_escape"
  | .ErrorBadCharClass => "bad_char_class"
  | .ErrorBadCharRange => "bad_char_range"
  | .ErrorMissingBracket => "missing_bracket"
  | .ErrorMissingParen => "missing_paren"
  | .ErrorTrailingBackslash => "trailing_backslash"
  | .ErrorRepeatArgument => "repeat_argument"
  | .ErrorRepeatSize => "repeat_size"
  | .ErrorRepeatOp => "repeat_op"
  | .ErrorBadPerlOp => "bad_perl_op"
  | .ErrorBadUTF8 => "bad_utf8"
  | .ErrorBadNamedCapture => "bad_named_capture"
  | .ErrorPatternTooLarge => "pattern_too_large"
  | _ => "no_error"

/-- Opaque model of a constructed `re2::RE2` engine object, carrying
exactly the observations the NIF makes of it.  `matchAt off` is the full
capture-slot assignment (length `NumberOfCapturingGroups + 1`, slot 0 the
whole match) of the leftmost unanchored match starting at `off`, or `none`
when `Match` returns false; the NIF passing `n` slots to `Match` is
modelled by truncating this assignment to its first `n` slots, since the
engine reports the same slot values regardless of how many are requested.
`occ s` is the left-to-right list of non-overlapping match occurrences
(offset, length) in subject `s`, driving `Replace`/`GlobalReplace`. -/
structure RE2 where
  ok : Bool
  error_code : re2_error_code
  error_msg : String
  error_arg : String
  NumberOfCapturingGroups : Nat
  NamedCapturingGroups : List (String × Nat)
  matchAt : Int → Option (List StringPiece)
  occ : List Nat → List (Nat × Nat)

/-- Result builder `mres`: shape one capture slot.  In BINARY shape an
`enif_alloc_binary` attempt is made (oracle index `k`); on failure the
sentinel atom `enif_alloc_binary` is returned, exactly as in the source.
In INDEX shape (also the switch default) an empty slot yields `{-1, 0}`
and otherwise `{offset, length}`.  Returns the term and the next
allocation counter. -/
def mres (alloc : Nat → Bool) (k : Nat) (s : List Nat) (m : StringPiece)
    (ct : capture_type) : Term × Nat :=
  match ct with
  | .CT_BINARY =>
    (if alloc k then Term.binary (extract s m)
     else Term.atom "enif_alloc_binary", k + 1)
  | _ =>
    (if m.len = 0 then Term.tuple [Term.int (-1), Term.int 0]
     else Term.tuple [Term.int (m.off : Int), Term.int (m.len : Int)], k)

/-- Number of capture slots to request from RE2
(`number_of_capturing_groups`): none for NONE, one for FIRST, all of
`nr_groups` otherwise. -/
def number_of_capturing_groups (nr_groups : Nat) (vs : value_spec) : Nat :=
  match vs with
  | .VS_NONE => 0
  | .VS_FIRST => 1
  | _ => nr_groups

/-- Result of the match NIF: `badarg` (invalid argument), `{error, Tag}`,
the bare `match` atom, `{match, Values}`, or the `nomatch` atom. -/
inductive MatchRes where
  | badarg
  | error : String → MatchRes
  | match_atom
  | matched : List Term → MatchRes
  | nomatch

/-- Whether a match result is an `{error, Tag}` tuple. -/
def MatchRes.isError : MatchRes → Bool
  | .error _ => true
  | _ => false

/-- Outcome of resolving one value-list entry that goes through the atom
branch of `re2_match_ret_vlist`: `alloc_atom` makes one `enif_alloc`
attempt (failure reports `enif_alloc`); `enif_get_atom` succeeds for
latin1 atoms; the name is looked up in the named-group table, shaping the
mapped slot or the empty piece, and an `enif_alloc_binary` failure in that
shaping reports `enif_alloc_binary`. -/
def vlist_entry_atom (alloc : Nat → Bool) (k : Nat) (s : List Nat)
    (ct : capture_type) (nmap : List (String × Nat))
    (group : List StringPiece) (a : String) : Sum String (Term × Nat) :=
  if alloc k then
    let rk :=
      match nmap.lookup a with
      | some idx => mres alloc (k + 1) s (group.getD idx sp_empty) ct
      | none => mres alloc (k + 1) s sp_empty ct
    if is_atom_named rk.1 "enif_alloc_binary" then Sum.inl "enif_alloc_binary"
    else Sum.inr rk
  else Sum.inl "enif_alloc"

/-- Outcome of resolving one value-list entry through the string branch of
`re2_match_ret_vlist`: `alloc_str` first queries the list length, which
fails (reported as `enif_alloc`, since `alloc_str` returns null) when the
term is not a proper list; otherwise one `enif_alloc` attempt is made;
`enif_get_string` then fails unless every element is a latin1 character
code; finally the name is looked up as in the atom branch. -/
def vlist_entry_str (alloc : Nat → Bool) (k : Nat) (s : List Nat)
    (ct : capture_type) (nmap : List (String × Nat))
    (group : List StringPiece) (vh : Term) : Sum String (Term × Nat) :=
  match vh with
  | .list xs =>
    if alloc k then
      match latin1_chars xs with
      | some cs =>
        let rk :=
          match nmap.lookup (String.mk cs) with
          | some idx => mres alloc (k + 1) s (group.getD idx sp_empty) ct
          | none => mres alloc (k + 1) s sp_empty ct
        if is_atom_named rk.1 "enif_alloc_binary" then
          Sum.inl "enif_alloc_binary"
        else Sum.inr rk
      | none => Sum.inl "enif_get_string"
    else Sum.inl "enif_alloc"
  | _ => Sum.inl "enif_alloc"

/-- Result of the value-list resolution loop: an error tag or the shaped
values. -/
inductive vres where
  | err : String → vres
  | ok : List Term → vres

/-- The loop of `re2_match_ret_vlist` over the value list.  An integer
entry that is positive and below `n` shapes slot `nid` (re-shaping the
empty piece when the slot is empty), aborting on an allocation failure; a
positive integer at or above `n` appends the shaped empty piece WITHOUT
checking it for the allocation-failure sentinel (source line 617); a
non-positive or non-machine-size integer is not an atom and therefore
falls through to the string branch, where `alloc_str` fails; atoms and
strings are resolved through the named-group table. -/
def vlist_loop (alloc : Nat → Bool) (s : List Nat) (ct : capture_type)
    (nmap : List (String × Nat)) (group : List StringPiece) (n : Nat) :
    List Term → Nat → List Term → vres
  | [], _, vec => .ok vec
  | vh :: vt, k, vec =>
    match enif_get_int vh with
    | some nid =>
      if 0 < nid then
        if nid < (n : Int) then
          let m := group.getD nid.toNat sp_empty
          let rk :=
            if m.len = 0 then mres alloc k s sp_empty ct
            else mres alloc k s m ct
          if is_atom_named rk.1 "enif_alloc_binary" then .err "enif_alloc_binary"
          else vlist_loop alloc s ct nmap group n vt rk.2 (vec ++ [rk.1])
        else
          let rk := mres alloc k s sp_empty ct
          vlist_loop alloc s ct nmap group n vt rk.2 (vec ++ [rk.1])
      else
        match vlist_entry_str alloc k s ct nmap group vh with
        | .inl tag => .err tag
        | .inr rk => vlist_loop alloc s ct nmap group n vt rk.2 (vec ++ [rk.1])
    | none =>
      match vh with
      | .atom a =>
        match vlist_entry_atom alloc k s ct nmap group a with
        | .inl tag => .err tag
        | .inr rk => vlist_loop alloc s ct nmap group n vt rk.2 (vec ++ [rk.1])
      | _ =>
        match vlist_entry_str alloc k s ct nmap group vh with
        | .inl tag => .err tag
        | .inr rk => vlist_loop alloc s ct nmap group n vt rk.2 (vec ++ [rk.1])

/-- `re2_match_ret_vlist`: run the value-list loop over the cells of the
configured value list and wrap the outcome. -/
def re2_match_ret_vlist (alloc : Nat → Bool) (s : List Nat)
    (opts : matchoptions) (nmap : List (String × Nat))
    (group : List StringPiece) (n : Nat) : MatchRes :=
  match vlist_loop alloc s opts.ct nmap group n (listCells opts.vlist) 0 [] with
  | .err tag => .error tag
  | .ok vec => .matched vec

/-- Shape consecutive capture slots (the all / all_but_first loop of
`re2_match_impl`), aborting on the first allocation-failure sentinel. -/
def shape_all (alloc : Nat → Bool) (s : List Nat) (ct : capture_type) :
    Nat → List StringPiece → Option (List Term)
  | _, [] => some []
  | k, m :: rest =>
    let rk := mres alloc k s m ct
    if is_atom_named rk.1 "enif_alloc_binary" then none
    else (shape_all alloc s ct rk.2 rest).map (rk.1 :: ·)

/-- The body of `re2_match_impl` after the pattern is resolved to an
engine object `re`: reject an invalid engine with badarg, request
`number_of_capturing_groups (G+1) vs` slots, and dispatch on the
value-spec over the match outcome. -/
def run_match (alloc : Nat → Bool) (s : List Nat) (opts : matchoptions)
    (re : RE2) : MatchRes :=
  if ¬ re.ok then .badarg
  else
    let nr_groups := re.NumberOfCapturingGroups + 1
    let n := number_of_capturing_groups nr_groups opts.vs
    match re.matchAt opts.offset with
    | none => .nomatch
    | some full =>
      let group := full.take n
      if opts.vs = .VS_NONE then .match_atom
      else if opts.vs = .VS_FIRST then
        let rk := mres alloc 0 s (group.getD 0 sp_empty) opts.ct
        if is_atom_named rk.1 "enif_alloc_binary" then .error "enif_alloc_binary"
        else .matched [rk.1]
      else if opts.vs = .VS_VLIST then
        re2_match_ret_vlist alloc s opts re.NamedCapturingGroups group n
      else
        let start := if opts.vs = .VS_ALL_BUT_FIRST then 1 else 0
        match shape_all alloc s opts.ct 0 (group.drop start) with
        | none => .error "enif_alloc_binary"
        | some ts => .matched ts

/-- The second argument of the match NIF: a resource handle wrapping a
live engine object, an inline pattern (with the success flag of the
`enif_alloc` for the engine object, and the engine constructed from the
pattern given the caseless override), or a term that is neither. -/
inductive PatternArg where
  | handle : RE2 → PatternArg
  | pattern : Bool → (Bool → RE2) → PatternArg
  | bad

/-- `re2_match_impl`: parse the options (absent options mean defaults),
resolve the pattern argument — rejecting `caseless` combined with a
precompiled handle with badarg, and compiling an inline pattern with the
caseless override — then run the match.  An invalid engine (from either
source) is rejected with badarg inside `run_match`. -/
def re2_match_impl (alloc : Nat → Bool) (s : List Nat) (parg : PatternArg)
    (optArg : Option (List Term)) : MatchRes :=
  let parsed :=
    match optArg with
    | none => some matchoptions.init
    | some l => parse_match_options l matchoptions.init
  match parsed with
  | none => .badarg
  | some opts =>
    match parg with
    | .handle re =>
      if opts.caseless then .badarg
      else run_match alloc s opts re
    | .pattern allocOk construct =>
      if allocOk then run_match alloc s opts (construct opts.caseless)
      else .error "enif_alloc"
    | .bad => .badarg

/-- Result of the compile NIF: `badarg`, `{error, AllocTag}`, the
structured compile error `{error, {Code, Msg, Arg}}`, or `{ok, Handle}`
carrying the compiled engine. -/
inductive CompileRes where
  | badarg
  | error : String → CompileRes
  | compile_error : String → String → String → CompileRes
  | ok : RE2 → CompileRes

/-- Tail of `re2_compile_impl` after option parsing: allocate the engine
object (`enif_alloc`, failure reported as `enif_alloc`), construct it from
the pattern with the parsed options, and either report the structured
error triple built by `re2error` or return the handle. -/
def compile_construct (allocRe2 : Bool) (construct : compileoptions → RE2)
    (opts : compileoptions) : CompileRes :=
  if allocRe2 then
    let re := construct opts
    if ¬ re.ok then
      .compile_error (re2error_atom re.error_code) re.error_msg re.error_arg
    else .ok re
  else .error "enif_alloc"

/-- `re2_compile_impl`: allocate the resource (failure reported as
`enif_alloc_resource`), parse the compile options (absent options mean
defaults; a parse failure is badarg), then construct the engine.
`construct` is the opaque engine constructor applied to the pattern bytes,
which are fixed here. -/
def re2_compile_impl (allocResource allocRe2 : Bool)
    (construct : compileoptions → RE2) (optArg : Option (List Term)) :
    CompileRes :=
  if allocResource then
    match optArg with
    | some l =>
      match parse_compile_options l {} with
      | none => .badarg
      | some opts => compile_construct allocRe2 construct opts
    | none => compile_construct allocRe2 construct {}
  else .error "enif_alloc_resource"

/-- Result of the replace NIF: `badarg`, `{error, Tag}`, the bare `error`
atom (the coarse no-substitution failure), or the substituted bytes. -/
inductive ReplRes where
  | badarg
  | error : String → ReplRes
  | error_atom
  | replaced : List Nat → ReplRes

/-- Substitute template expansions for a left-to-right list of
non-overlapping occurrences, starting from position `pos`: text outside
the occurrences is preserved verbatim and each occurrence `(st, len)` is
replaced by `rw (st, len)`, the engine's expansion of the replacement
template at that occurrence. -/
def applyOccs (s : List Nat) (rw : Nat × Nat → List Nat) :
    Nat → List (Nat × Nat) → List Nat
  | pos, [] => s.drop pos
  | pos, (st, len) :: rest =>
    (s.drop pos).take (st - pos) ++ rw (st, len) ++ applyOccs s rw (st + len) rest

/-- Model of the external engine collaborator `RE2::Replace` (spec section
1: substitute(text, pattern, template, global?)): rewrite the first match
occurrence only; report failure when there is no occurrence. -/
def RE2.Replace (re : RE2) (rw : Nat × Nat → List Nat) (s : List Nat) :
    Option (List Nat) :=
  match re.occ s with
  | [] => none
  | o :: _ => some (applyOccs s rw 0 [o])

/-- Model of the external engine collaborator `RE2::GlobalReplace`:
rewrite every non-overlapping occurrence left to right; report failure
(a zero replacement count) when there is no occurrence. -/
def RE2.GlobalReplace (re : RE2) (rw : Nat × Nat → List Nat) (s : List Nat) :
    Option (List Nat) :=
  match re.occ s with
  | [] => none
  | occs => some (applyOccs s rw 0 occs)

/-- Result builder `rres`: copy the substituted text into a fresh binary;
an `enif_alloc_binary` failure is reported as `{error, enif_alloc_binary}`. -/
def rres (allocBin : Bool) (s : List Nat) : ReplRes :=
  if allocBin then .replaced s else .error "enif_alloc_binary"

/-- The second argument of the replace NIF: a resource handle, an inline
pattern (engine-object `enif_alloc` success flag and the constructed
engine — replace never applies a caseless override), or neither. -/
inductive RPatternArg where
  | handle : RE2 → RPatternArg
  | pattern : Bool → RE2 → RPatternArg
  | bad

/-- `re2_replace_impl`: resolve the pattern argument, reject an invalid
engine with badarg, parse the replace options (absent options mean
defaults), then run either `GlobalReplace` or `Replace`; a successful
substitution is returned through `rres` and an engine-reported
no-substitution outcome is the bare `error` atom. -/
def re2_replace_impl (allocBin : Bool) (s : List Nat) (parg : RPatternArg)
    (rw : Nat × Nat → List Nat) (optArg : Option (List Term)) : ReplRes :=
  let resolved : Sum ReplRes RE2 :=
    match parg with
    | .handle re => .inr re
    | .pattern allocOk re => if allocOk then .inr re else .inl (.error "enif_alloc")
    | .bad => .inl .badarg
  match resolved with
  | .inl r => r
  | .inr re =>
    if ¬ re.ok then .badarg
    else
      let parsed :=
        match optArg with
        | none => some ({} : replaceoptions)
        | some l => parse_replace_options l {}
      match parsed with
      | none => .badarg
      | some opts =>
        if opts.global then
          match re.GlobalReplace rw s with
          | some s2 => rres allocBin s2
          | none => .error_atom
        else
          match re.Replace rw s with
          | some s2 => rres allocBin s2
          | none => .error_atom

/-- The canonical "unmatched" placeholder per shape: the empty binary in
BINARY shape and the byte-range `{-1, 0}` otherwise.  Characterized
against `mres` by `mres_empty_unmatched` below. -/
def unmatched_term (ct : capture_type) : Term :=
  match ct with
  | .CT_BINARY => Term.binary []
  | _ => Term.tuple [Term.int (-1), Term.int 0]

/-- Concrete engine used in witnesses: one capturing group named `g`,
matching any subject at slots (0,2) for the whole match and (0,1) for
group 1. -/
def eg1 : RE2 :=
  { ok := true, error_code := .NoError, error_msg := "", error_arg := ""
    NumberOfCapturingGroups := 1
    NamedCapturingGroups := [("g", 1)]
    matchAt := fun _ => some [{ isNull := false, off := 0, len := 2 },
                              { isNull := false, off := 0, len := 1 }]
    occ := fun _ => [] }

/-- Concrete invalid engine used in witnesses: construction failed with a
missing-paren parse error. -/
def egBad : RE2 :=
  { ok := false, error_code := .ErrorMissingParen
    error_msg := "missing closing )", error_arg := "(foo"
    NumberOfCapturingGroups := 0, NamedCapturingGroups := []
    matchAt := fun _ => none, occ := fun _ => [] }

/-- Concrete engine used in replace witnesses: two non-overlapping
occurrences, at bytes 0 and 2 of any subject. -/
def egRepl : RE2 :=
  { ok := true, error_code := .NoError, error_msg := "", error_arg := ""
    NumberOfCapturingGroups := 0, NamedCapturingGroups := []
    matchAt := fun _ => none
    occ := fun _ => [(0, 1), (2, 1)] }

/-- Concrete engine used in replace witnesses: no occurrence anywhere. -/
def egNoOcc : RE2 :=
  { ok := true, error_code := .NoError, error_msg := "", error_arg := ""
    NumberOfCapturingGroups := 0, NamedCapturingGroups := []
    matchAt := fun _ => none
    occ := fun _ => [] }

/-- The value `mres` produces under an always-succeeding allocator does
not depend on the allocation counter. -/
theorem mres_fst_true (s : List Nat) (m : StringPiece) (ct : capture_type)
    (k : Nat) :
    (mres (fun _ => true) k s m ct).1 = (mres (fun _ => true) 0 s m ct).1 := by
  cases ct <;> rfl

/-- Under an always-succeeding allocator, `mres` never returns the
allocation-failure sentinel. -/
theorem mres_true_not_alloc_atom (s : List Nat) (m : StringPiece)
    (ct : capture_type) (k : Nat) :
    is_atom_named (mres (fun _ => true) k s m ct).1 "enif_alloc_binary" = false := by
  cases ct <;> simp only [mres] <;> split <;> first | rfl | simp_all

/-- Shaping the empty piece yields the canonical unmatched placeholder
under an always-succeeding allocator. -/
theorem mres_empty_unmatched (s : List Nat) (ct : capture_type) (k : Nat)
    (m : StringPiece) (hm : m.len = 0) :
    (mres (fun _ => true) k s m ct).1 = unmatched_term ct := by
  cases m
  simp only [StringPiece.len] at hm
  subst hm
  cases ct <;> simp [mres, unmatched_term, extract]

/-- Under an always-succeeding allocator, the all/all_but_first shaping
loop succeeds and produces the `mres` value of each slot in order. -/
theorem shape_all_true (s : List Nat) (ct : capture_type) :
    ∀ (l : List StringPiece) (k : Nat),
      shape_all (fun _ => true) s ct k l
        = some (l.map fun m => (mres (fun _ => true) 0 s m ct).1) := by
  intro l
  induction l with
  | nil => intro k; rfl
  | cons m rest ih =>
    intro k
    simp only [shape_all, mres_true_not_alloc_atom, Bool.false_eq_true,
      if_false, ih, Option.map_some', List.map_cons, mres_fst_true]

/-- C1 (counterexample): the compile and match option parsers do NOT fail
on tagged entries with an unknown tag or a wrong arity — a 2-tuple tagged
`foo`, a 3-tuple tagged `max_mem`, and a 3-tuple tagged `foo` are all
silently skipped, so the parse of a sequence holding only such an entry
succeeds instead of failing with the invalid-argument signal. -/
theorem c1_unknown_tag_skipped :
    parse_compile_options [Term.tuple [Term.atom "foo", Term.int 1]] {} = some {} ∧
    parse_compile_options
      [Term.tuple [Term.atom "max_mem", Term.int 1, Term.int 2]] {} = some {} ∧
    parse_match_options [Term.tuple [Term.atom "foo", Term.int 1, Term.int 2]]
      matchoptions.init = some matchoptions.init ∧
    parse_compile_options [Term.tuple [Term.atom "foo", Term.int 1]]
      ({} : compileoptions) ≠ none :=
  ⟨rfl, rfl, rfl, by decide⟩

/-- C1 (amended): the parsers fold entries left to right.  The compile and
match parsers fail on the first entry that is neither the recognized bare
flag nor a tuple, and on a recognized tagged entry (`max_mem` resp.
`offset`) whose payload is not a machine integer; tagged entries with an
unrecognized tag or a wrong arity are silently skipped, not rejected.  The
replace parser fails on any entry other than the bare `global` flag. -/
theorem c1_parser_first_error
    (h : Term) (t : List Term) (o : compileoptions) (mo : matchoptions)
    (ro : replaceoptions) :
    (is_atom_named h "caseless" = false → is_tuple h = false →
      parse_compile_options (h :: t) o = none ∧
      parse_match_options (h :: t) mo = none) ∧
    (is_atom_named h "global" = false → parse_replace_options (h :: t) ro = none) ∧
    (∀ tag x, is_atom_named tag "max_mem" = false →
      parse_compile_options (Term.tuple [tag, x] :: t) o = parse_compile_options t o) ∧
    (∀ ts : List Term, ts.length ≠ 2 →
      parse_compile_options (Term.tuple ts :: t) o = parse_compile_options t o) ∧
    (∀ x, enif_get_int x = none →
      parse_compile_options (Term.tuple [Term.atom "max_mem", x] :: t) o = none) ∧
    (∀ tag x (r : List Term), r.length ≤ 1 → is_atom_named tag "offset" = false →
      is_atom_named tag "capture" = false →
      parse_match_options (Term.tuple (tag :: x :: r) :: t) mo
        = parse_match_options t mo) ∧
    (∀ ts : List Term, ts.length ≠ 2 → ts.length ≠ 3 →
      parse_match_options (Term.tuple ts :: t) mo = parse_match_options t mo) ∧
    (∀ x (r : List Term), r.length ≤ 1 → enif_get_int x = none →
      parse_match_options (Term.tuple (Term.atom "offset" :: x :: r) :: t) mo
        = none) := by
  refine ⟨?_, ?_, ?_, ?_, ?_, ?_, ?_, ?_⟩
  · intro hc ht
    cases h with
    | atom a =>
      simp only [is_atom_named, beq_eq_false_iff_ne, ne_eq] at hc
      exact ⟨by simp [parse_compile_options, hc], by simp [parse_match_options, hc]⟩
    | tuple ts => simp [is_tuple] at ht
    | int n => exact ⟨rfl, rfl⟩
    | list xs => exact ⟨rfl, rfl⟩
    | binary b => exact ⟨rfl, rfl⟩
  · intro hg
    simp [parse_replace_options, hg]
  · intro tag x htag
    simp [parse_compile_options, htag]
  · intro ts hlen
    rcases ts with _ | ⟨a, _ | ⟨b, _ | ⟨c, r⟩⟩⟩
    · rfl
    · rfl
    · simp at hlen
    · rfl
  · intro x hx
    simp [parse_compile_options, is_atom_named, hx]
  · intro tag x r hr htag1 htag2
    rcases r with _ | ⟨y, _ | ⟨z, r2⟩⟩
    · simp [parse_match_options, htag1, htag2]
    · simp [parse_match_options, htag1, htag2]
    · simp at hr
  · intro ts h2 h3
    simp [parse_match_options, h2, h3]
  · intro x r hr hx
    rcases r with _ | ⟨y, _ | ⟨z, r2⟩⟩
    · simp [parse_match_options, is_atom_named, hx]
    · simp [parse_match_options, is_atom_named, hx]
    · simp at hr

/-- C1 (witness): the amended behavior at concrete inputs — a bare
integer entry fails the compile parse, a non-global entry fails the
replace parse, and a `max_mem` entry with a non-integer payload fails. -/
theorem c1_parser_first_error_witness :
    parse_compile_options [Term.int 7] {} = none ∧
    parse_replace_options [Term.atom "caseless"] {} = none ∧
    parse_compile_options [Term.tuple [Term.atom "max_mem", Term.atom "x"]] {}
      = none := by
  refine ⟨?_, ?_, ?_⟩
  · exact ((c1_parser_first_error (Term.int 7) [] {} matchoptions.init {}).1
      rfl rfl).1
  · exact (c1_parser_first_error (Term.atom "caseless") [] {}
      matchoptions.init {}).2.1 rfl
  · exact (c1_parser_first_error (Term.atom "z") [] {}
      matchoptions.init {}).2.2.2.2.1 (Term.atom "x") rfl

/-- C2: the capture planner requests 0 slots for NONE, 1 for FIRST, and
G + 1 (every group plus the whole match) for ALL, ALL_BUT_FIRST and an
explicit LIST, where G is the pattern's capturing-group count and the
engine receives `nr_groups = G + 1`. -/
theorem c2_capture_planner (G : Nat) :
    number_of_capturing_groups (G + 1) .VS_NONE = 0 ∧
    number_of_capturing_groups (G + 1) .VS_FIRST = 1 ∧
    number_of_capturing_groups (G + 1) .VS_ALL = G + 1 ∧
    number_of_capturing_groups (G + 1) .VS_ALL_BUT_FIRST = G + 1 ∧
    number_of_capturing_groups (G + 1) .VS_VLIST = G + 1 :=
  ⟨rfl, rfl, rfl, rfl, rfl⟩

/-- C4 (counterexample): a `{capture, ValueSpec, Shape}` entry whose
ValueSpec is the unrecognized atom `bogus` does NOT leave the shape at its
previous value: the parse succeeds with the value-spec unchanged but the
shape switched from the default BINARY to INDEX, because any atom — not
only a recognized one — marks the value-spec as classified. -/
theorem c4_unrecognized_atom_applies_shape :
    parse_match_options
      [Term.tuple [Term.atom "capture", Term.atom "bogus", Term.atom "index"]]
      matchoptions.init = some { matchoptions.init with ct := .CT_INDEX } ∧
    capture_type.CT_INDEX ≠ matchoptions.init.ct :=
  ⟨rfl, by decide⟩

/-- C4 (amended): the Shape component is silently ignored exactly when
ValueSpec is the empty list; any atom (recognized or not) classifies the
value-spec — an unrecognized atom leaves the value-spec itself unchanged
while the shape still takes effect — and any other term is classified as
an explicit value list. -/
theorem c4_shape_applied_iff_classified (o : matchoptions) (sh v : Term) :
    (parse_match_capture_options o (Term.list []) (some sh) = o) ∧
    (∀ a : String, ¬ a = "all" → ¬ a = "all_but_first" → ¬ a = "first" →
      ¬ a = "none" →
      parse_match_capture_options o (Term.atom a) (some (Term.atom "index"))
        = { o with ct := .CT_INDEX }) ∧
    (is_atom v = false → ¬ v = Term.list [] →
      parse_match_capture_options o v (some (Term.atom "index"))
        = { o with vlist := v, vs := .VS_VLIST, ct := .CT_INDEX }) ∧
    (parse_match_capture_options o (Term.atom "all_but_first")
        (some (Term.atom "binary"))
      = { o with vs := .VS_ALL_BUT_FIRST, ct := .CT_BINARY }) := by
  refine ⟨rfl, ?_, ?_, ?_⟩
  · intro a h1 h2 h3 h4
    simp [parse_match_capture_options, classify_vs, apply_shape,
      is_atom_named, h1, h2, h3, h4]
  · intro hv hne
    cases v with
    | atom a => simp [is_atom] at hv
    | list xs =>
      cases xs with
      | nil => exact absurd rfl hne
      | cons x xs2 => rfl
    | int n => rfl
    | tuple ts => rfl
    | binary b => rfl
  · simp [parse_match_capture_options, classify_vs, apply_shape,
      is_atom_named]

/-- C4 (witness): the amended behavior at concrete inputs — an empty-list
ValueSpec ignores the shape entirely, while the unrecognized atom `bogus`
still lets an `index` shape take effect. -/
theorem c4_shape_applied_iff_classified_witness :
    parse_match_capture_options matchoptions.init (Term.list [])
      (some (Term.atom "index")) = matchoptions.init ∧
    parse_match_capture_options matchoptions.init (Term.atom "bogus")
      (some (Term.atom "index"))
      = { matchoptions.init with ct := .CT_INDEX } := by
  have h := c4_shape_applied_iff_classified matchoptions.init
    (Term.atom "index") (Term.int 3)
  exact ⟨h.1, h.2.1 "bogus" (by decide) (by decide) (by decide) (by decide)⟩

/-- C5: supplying the caseless match option together with a precompiled
handle makes the match call fail with the generic invalid-argument
signal. -/
theorem c5_caseless_with_handle (alloc : Nat → Bool) (s : List Nat) (re : RE2)
    (l : List Term) (opts : matchoptions)
    (hp : parse_match_options l matchoptions.init = some opts)
    (hc : opts.caseless = true) :
    re2_match_impl alloc s (.handle re) (some l) = .badarg := by
  simp [re2_match_impl, hp, hc]

/-- The canonical unmatched placeholder is never the allocation-failure
sentinel atom. -/
theorem unmatched_not_alloc_atom (ct : capture_type) :
    is_atom_named (unmatched_term ct) "enif_alloc_binary" = false := by
  cases ct <;> rfl

/-- C3 (counterexample): a successful match with the explicit reference
LIST `[0]` does not yield the unmatched placeholder — the integer 0 is not
taken by the positive-integer branch, is not an atom, and so falls through
to the string branch, where `alloc_str` fails on a non-list term and the
whole call fails with `{error, enif_alloc}`. -/
theorem c3_zero_reference_fails :
    re2_match_impl (fun _ => true) [97, 98] (.handle eg1)
      (some [Term.tuple [Term.atom "capture", Term.list [Term.int 0]]])
      = .error "enif_alloc" ∧
    (re2_match_impl (fun _ => true) [97, 98] (.handle eg1)
      (some [Term.tuple [Term.atom "capture", Term.list [Term.int 0]]])).isError
      = true :=
  ⟨rfl, rfl⟩

/-- C3 (amended): in LIST resolution with all allocations succeeding, a
positive machine-size integer reference at or above N and an atom or
string name absent from the named-group table each append the canonical
unmatched placeholder and continue; but an integer reference that is
non-positive or does not fit a machine integer falls through to the string
branch and aborts the call with `{error, enif_alloc}`. -/
theorem c3_list_reference_resolution (s : List Nat) (ct : capture_type)
    (nmap : List (String × Nat)) (group : List StringPiece) (n : Nat)
    (rest : List Term) (k : Nat) (vec : List Term) :
    (∀ id : Int, 0 < id → (n : Int) ≤ id → id < 2147483648 →
      vlist_loop (fun _ => true) s ct nmap group n (Term.int id :: rest) k vec
        = vlist_loop (fun _ => true) s ct nmap group n rest
            (mres (fun _ => true) k s sp_empty ct).2
            (vec ++ [unmatched_term ct])) ∧
    (∀ a : String, nmap.lookup a = none →
      vlist_loop (fun _ => true) s ct nmap group n (Term.atom a :: rest) k vec
        = vlist_loop (fun _ => true) s ct nmap group n rest
            (mres (fun _ => true) (k + 1) s sp_empty ct).2
            (vec ++ [unmatched_term ct])) ∧
    (∀ xs cs, latin1_chars xs = some cs →
      nmap.lookup (String.mk cs) = none →
      vlist_loop (fun _ => true) s ct nmap group n (Term.list xs :: rest) k vec
        = vlist_loop (fun _ => true) s ct nmap group n rest
            (mres (fun _ => true) (k + 1) s sp_empty ct).2
            (vec ++ [unmatched_term ct])) ∧
    (∀ id : Int, id ≤ 0 ∨ 2147483648 ≤ id →
      vlist_loop (fun _ => true) s ct nmap group n (Term.int id :: rest) k vec
        = .err "enif_alloc") := by
  refine ⟨?_, ?_, ?_, ?_⟩
  · intro id h1 h2 h3
    have hget : enif_get_int (Term.int id) = some id := by
      simp only [enif_get_int, if_pos (by omega : -2147483648 ≤ id ∧ id < 2147483648)]
    have h2' : ¬ (id < (n : Int)) := not_lt.mpr h2
    simp only [vlist_loop, hget, h1, h2', if_true, if_false,
      mres_empty_unmatched s ct k sp_empty rfl]
  · intro a ha
    simp only [vlist_loop, enif_get_int, vlist_entry_atom, ha, if_true,
      mres_true_not_alloc_atom, Bool.false_eq_true, if_false,
      mres_empty_unmatched s ct (k + 1) sp_empty rfl, unmatched_not_alloc_atom]
  · intro xs cs hxs hlk
    simp only [vlist_loop, enif_get_int, vlist_entry_str, hxs, hlk, if_true,
      mres_true_not_alloc_atom, Bool.false_eq_true, if_false,
      mres_empty_unmatched s ct (k + 1) sp_empty rfl, unmatched_not_alloc_atom]
  · intro id hid
    by_cases hr : -2147483648 ≤ id ∧ id < 2147483648
    · have hget : enif_get_int (Term.int id) = some id := by
        simp only [enif_get_int, if_pos hr]
      have h0 : ¬ (0 < id) := by omega
      simp only [vlist_loop, hget, h0, if_false, vlist_entry_str]
    · have hget : enif_get_int (Term.int id) = none := by
        simp only [enif_get_int, if_neg hr]
      simp only [vlist_loop, hget, vlist_entry_str]

/-- C3 (witness): in a 2-slot match the out-of-range reference 9 appends
the INDEX-shape placeholder and resolution continues, while the reference
0 aborts with `{error, enif_alloc}`. -/
theorem c3_list_reference_resolution_witness :
    vlist_loop (fun _ => true) [97, 98] .CT_INDEX [("g", 1)]
      [{ isNull := false, off := 0, len := 2 },
       { isNull := false, off := 0, len := 1 }] 2 [Term.int 9] 0 []
      = vlist_loop (fun _ => true) [97, 98] .CT_INDEX [("g", 1)]
          [{ isNull := false, off := 0, len := 2 },
           { isNull := false, off := 0, len := 1 }] 2 []
          (mres (fun _ => true) 0 [97, 98] sp_empty .CT_INDEX).2
          ([] ++ [unmatched_term .CT_INDEX]) ∧
    vlist_loop (fun _ => true) [97, 98] .CT_INDEX [("g", 1)]
      [{ isNull := false, off := 0, len := 2 },
       { isNull := false, off := 0, len := 1 }] 2 [Term.int 0] 0 []
      = .err "enif_alloc" := by
  have h := c3_list_reference_resolution [97, 98] .CT_INDEX [("g", 1)]
    [{ isNull := false, off := 0, len := 2 },
     { isNull := false, off := 0, len := 1 }] 2 [] 0 []
  exact ⟨h.1 9 (by omega) (by omega) (by omega),
    h.2.2.2 0 (Or.inl (by omega))⟩

/-- C5 (witness): a concrete caseless-plus-handle call is rejected. -/
theorem c5_caseless_with_handle_witness :
    re2_match_impl (fun _ => true) [] (.handle eg1)
      (some [Term.atom "caseless"]) = .badarg :=
  c5_caseless_with_handle (fun _ => true) [] eg1 [Term.atom "caseless"]
    { matchoptions.init with caseless := true } rfl rfl

/-- Under an always-succeeding allocator, a successful match with
value-spec ALL returns every slot of the full assignment, shaped in
order. -/
theorem run_match_all_true (s : List Nat) (ct : capture_type) (off : Int)
    (re : RE2) (full : List StringPiece)
    (hok : re.ok = true) (hm : re.matchAt off = some full)
    (hlen : full.length = re.NumberOfCapturingGroups + 1) :
    run_match (fun _ => true) s
        { matchoptions.init with offset := off, vs := .VS_ALL, ct := ct } re
      = .matched (full.map fun m => (mres (fun _ => true) 0 s m ct).1) := by
  have htake : full.take (re.NumberOfCapturingGroups + 1) = full := by
    rw [← hlen]
    exact List.take_length full
  simp [run_match, hok, hm, number_of_capturing_groups, htake, shape_all_true]

/-- Under an always-succeeding allocator, a successful match with
value-spec FIRST returns the shaped slot 0 alone. -/
theorem run_match_first_true (s : List Nat) (ct : capture_type) (off : Int)
    (re : RE2) (full : List StringPiece)
    (hok : re.ok = true) (hm : re.matchAt off = some full) :
    run_match (fun _ => true) s
        { matchoptions.init with offset := off, vs := .VS_FIRST, ct := ct } re
      = .matched [(mres (fun _ => true) 0 s (full.headD sp_empty) ct).1] := by
  simp only [run_match, hok, hm, number_of_capturing_groups]
  cases full <;>
    simp [mres_true_not_alloc_atom, mres_fst_true]

/-- Under an always-succeeding allocator, a successful match with
value-spec ALL_BUT_FIRST returns every slot except slot 0, shaped in
order. -/
theorem run_match_abf_true (s : List Nat) (ct : capture_type) (off : Int)
    (re : RE2) (full : List StringPiece)
    (hok : re.ok = true) (hm : re.matchAt off = some full)
    (hlen : full.length = re.NumberOfCapturingGroups + 1) :
    run_match (fun _ => true) s
        { matchoptions.init with offset := off, vs := .VS_ALL_BUT_FIRST, ct := ct } re
      = .matched ((full.drop 1).map fun m => (mres (fun _ => true) 0 s m ct).1) := by
  have htake : full.take (re.NumberOfCapturingGroups + 1) = full := by
    rw [← hlen]
    exact List.take_length full
  simp [run_match, hok, hm, number_of_capturing_groups, htake, shape_all_true]

/-- C6: for a fixed subject, engine, offset and shape with a successful
match (and successful allocation), the FIRST result is the one-element
prefix of the ALL result and the ALL_BUT_FIRST result is exactly its
tail. -/
theorem c6_first_abf_agree_with_all (s : List Nat) (re : RE2) (off : Int)
    (ct : capture_type) (full : List StringPiece) (vals : List Term)
    (hok : re.ok = true)
    (hm : re.matchAt off = some full)
    (hlen : full.length = re.NumberOfCapturingGroups + 1)
    (hall : run_match (fun _ => true) s
        { matchoptions.init with offset := off, vs := .VS_ALL, ct := ct } re
      = .matched vals) :
    run_match (fun _ => true) s
        { matchoptions.init with offset := off, vs := .VS_FIRST, ct := ct } re
      = .matched (vals.take 1) ∧
    run_match (fun _ => true) s
        { matchoptions.init with offset := off, vs := .VS_ALL_BUT_FIRST, ct := ct } re
      = .matched vals.tail := by
  rcases full with _ | ⟨m0, fr⟩
  · exact absurd hlen (by simp only [List.length_nil]; omega)
  · have hA := run_match_all_true s ct off re (m0 :: fr) hok hm hlen
    rw [hall] at hA
    injection hA with hv
    subst hv
    refine ⟨?_, ?_⟩
    · rw [run_match_first_true s ct off re (m0 :: fr) hok hm]
      simp
    · rw [run_match_abf_true s ct off re (m0 :: fr) hok hm hlen]
      simp

/-- C6 (witness): for a concrete 2-slot match in INDEX shape, FIRST gives
the head of the ALL result and ALL_BUT_FIRST its tail. -/
theorem c6_first_abf_agree_with_all_witness :
    run_match (fun _ => true) [97, 98]
        { matchoptions.init with offset := 0, vs := .VS_FIRST, ct := .CT_INDEX } eg1
      = .matched ([Term.tuple [Term.int 0, Term.int 2],
          Term.tuple [Term.int 0, Term.int 1]].take 1) ∧
    run_match (fun _ => true) [97, 98]
        { matchoptions.init with offset := 0, vs := .VS_ALL_BUT_FIRST, ct := .CT_INDEX } eg1
      = .matched ([Term.tuple [Term.int 0, Term.int 2],
          Term.tuple [Term.int 0, Term.int 1]].tail) :=
  c6_first_abf_agree_with_all [97, 98] eg1 0 .CT_INDEX
    [{ isNull := false, off := 0, len := 2 },
     { isNull := false, off := 0, len := 1 }]
    [Term.tuple [Term.int 0, Term.int 2], Term.tuple [Term.int 0, Term.int 1]]
    rfl rfl rfl rfl

/-- C7 (counterexample): with BINARY shape and an allocator that succeeds
on the first attempt and fails on the second, the LIST `[1, 5]` against a
2-slot match shapes slot 1 successfully, then the allocation for the
out-of-range reference 5's placeholder fails — yet the call does not abort
with an allocation-failure error: the failure sentinel atom is pushed into
the result sequence uninspected (source line 617). -/
theorem c7_unchecked_placeholder_alloc :
    re2_match_impl (fun k => k == 0) [97, 98] (.handle eg1)
      (some [Term.tuple [Term.atom "capture", Term.list [Term.int 1, Term.int 5],
        Term.atom "binary"]])
      = .matched [Term.binary [97], Term.atom "enif_alloc_binary"] ∧
    (re2_match_impl (fun k => k == 0) [97, 98] (.handle eg1)
      (some [Term.tuple [Term.atom "capture", Term.list [Term.int 1, Term.int 5],
        Term.atom "binary"]])).isError = false :=
  ⟨rfl, rfl⟩

/-- With BINARY shape and an allocator failing exactly at attempt `i`, the
all/all_but_first shaping loop started at counter `k ≤ i` fails as soon as
it reaches slot `i`, however many earlier slots were already shaped. -/
theorem shape_all_fail (s : List Nat) (i : Nat) :
    ∀ (l : List StringPiece) (k : Nat), k ≤ i → i < k + l.length →
      shape_all (fun j => !(j == i)) s .CT_BINARY k l = none := by
  intro l
  induction l with
  | nil =>
    intro k h1 h2
    simp only [List.length_nil] at h2
    omega
  | cons m rest ih =>
    intro k h1 h2
    by_cases hk : k = i
    · subst hk
      simp [shape_all, mres, is_atom_named]
    · have hkb : (k == i) = false := by simp [hk]
      simp only [shape_all, mres, hkb, Bool.not_false, if_true, is_atom_named,
        Bool.false_eq_true, if_false,
        ih (k + 1) (by omega) (by simp only [List.length_cons] at h2; omega),
        Option.map_none']

/-- C7 (amended): an allocation failure while shaping a capture aborts the
whole operation with the allocation-failure error in the checked paths —
the ALL loop at any slot position (even after earlier slots were shaped),
an in-range integer LIST reference, and a name LIST reference.  The one
exception, established by the counterexample, is the placeholder shaped
for an out-of-range positive integer LIST reference, which is appended
without an allocation check. -/
theorem c7_alloc_failure_aborts (s : List Nat) (re : RE2) (off : Int)
    (full : List StringPiece) (i : Nat) (nmap : List (String × Nat))
    (group : List StringPiece) (n : Nat) (rest : List Term) (k : Nat)
    (vec : List Term) (alloc : Nat → Bool) :
    (re.ok = true → re.matchAt off = some full →
      i < (full.take (re.NumberOfCapturingGroups + 1)).length →
      run_match (fun j => !(j == i)) s
        { matchoptions.init with offset := off, vs := .VS_ALL, ct := .CT_BINARY } re
        = .error "enif_alloc_binary") ∧
    (∀ nid : Int, 0 < nid → nid < (n : Int) → nid < 2147483648 →
      alloc k = false →
      vlist_loop alloc s .CT_BINARY nmap group n (Term.int nid :: rest) k vec
        = .err "enif_alloc_binary") ∧
    (∀ a : String, alloc k = true → alloc (k + 1) = false →
      vlist_loop alloc s .CT_BINARY nmap group n (Term.atom a :: rest) k vec
        = .err "enif_alloc_binary") := by
  refine ⟨?_, ?_, ?_⟩
  · intro hok hm hi
    have hs := shape_all_fail s i (full.take (re.NumberOfCapturingGroups + 1)) 0
      (Nat.zero_le i) (by simpa using hi)
    simp [run_match, hok, hm, number_of_capturing_groups, hs]
  · intro nid h1 h2 h3 hk
    have hget : enif_get_int (Term.int nid) = some nid := by
      simp only [enif_get_int,
        if_pos (by omega : -2147483648 ≤ nid ∧ nid < 2147483648)]
    simp only [vlist_loop, hget, h1, h2, if_true, mres, hk,
      Bool.false_eq_true, if_false]
    split <;> rfl
  · intro a ht hf
    simp only [vlist_loop, enif_get_int, vlist_entry_atom, ht, if_true, mres, hf,
      Bool.false_eq_true, if_false]
    cases nmap.lookup a <;> rfl

/-- C7 (witness): the amended abort behavior at concrete inputs — an
allocation failure at the second slot of an ALL shaping aborts the call,
and an allocation failure while shaping the in-range LIST reference 1
aborts the resolution loop. -/
theorem c7_alloc_failure_aborts_witness :
    run_match (fun j => !(j == 1)) [97, 98]
        { matchoptions.init with offset := 0, vs := .VS_ALL, ct := .CT_BINARY } eg1
      = .error "enif_alloc_binary" ∧
    vlist_loop (fun _ => false) [97, 98] .CT_BINARY [("g", 1)]
      [{ isNull := false, off := 0, len := 2 },
       { isNull := false, off := 0, len := 1 }] 2 [Term.int 1] 0 []
      = .err "enif_alloc_binary" := by
  refine ⟨?_, ?_⟩
  · exact (c7_alloc_failure_aborts [97, 98] eg1 0
      [{ isNull := false, off := 0, len := 2 },
       { isNull := false, off := 0, len := 1 }] 1 [] [] 0 [] 0 []
      (fun _ => false)).1 rfl rfl (by simp [eg1])
  · exact (c7_alloc_failure_aborts [97, 98] eg1 0 [] 0 [("g", 1)]
      [{ isNull := false, off := 0, len := 2 },
       { isNull := false, off := 0, len := 1 }] 2 [] 0 []
      (fun _ => false)).2.1 1 (by omega) (by omega) (by omega) rfl

/-- C8: compiling an invalid pattern returns the structured error triple
(closed error-code atom, engine message, offending fragment), while a
match or replace call that compiles the same invalid pattern inline fails
with the generic invalid-argument signal only — the structured payload is
never produced there. -/
theorem c8_invalid_pattern_error_paths
    (construct : compileoptions → RE2) (l : List Term) (opts : compileoptions)
    (alloc : Nat → Bool) (s : List Nat) (re : RE2)
    (lm : List Term) (mopts : matchoptions) (rw0 : Nat × Nat → List Nat)
    (hp : parse_compile_options l {} = some opts)
    (hbad : (construct opts).ok = false)
    (hre : re.ok = false)
    (hpm : parse_match_options lm matchoptions.init = some mopts) :
    re2_compile_impl true true construct (some l)
      = .compile_error (re2error_atom (construct opts).error_code)
          (construct opts).error_msg (construct opts).error_arg ∧
    re2_match_impl alloc s (.pattern true fun _ => re) (some lm) = .badarg ∧
    re2_replace_impl true s (.pattern true re) rw0 none = .badarg := by
  refine ⟨?_, ?_, ?_⟩
  · simp [re2_compile_impl, hp, compile_construct, hbad]
  · simp [re2_match_impl, hpm, run_match, hre]
  · simp [re2_replace_impl, hre]

/-- C8 (witness): a concrete invalid engine (missing-paren) gives the
structured triple from compile, and badarg from inline match and
replace. -/
theorem c8_invalid_pattern_error_paths_witness :
    re2_compile_impl true true (fun _ => egBad) (some [])
      = .compile_error "missing_paren" "missing closing )" "(foo" ∧
    re2_match_impl (fun _ => true) [] (.pattern true fun _ => egBad)
      (some []) = .badarg ∧
    re2_replace_impl true [] (.pattern true egBad) (fun _ => []) none
      = .badarg :=
  c8_invalid_pattern_error_paths (fun _ => egBad) [] {} (fun _ => true) []
    egBad [] matchoptions.init (fun _ => []) rfl rfl rfl rfl

/-- C9: the replace call without the global flag substitutes at most the
first occurrence — the text before it and after it is preserved verbatim —
while with the global flag every non-overlapping occurrence is substituted
left to right; success returns the resulting text and an engine-reported
no-substitution outcome returns the bare `error` atom with no structured
detail. -/
theorem c9_replace_dispatch (re : RE2) (s : List Nat)
    (rw0 : Nat × Nat → List Nat) (l : List Term) (opts : replaceoptions)
    (hok : re.ok = true)
    (hp : parse_replace_options l {} = some opts) :
    (re.occ s = [] →
      re2_replace_impl true s (.handle re) rw0 (some l) = .error_atom) ∧
    (∀ st len (rest : List (Nat × Nat)), re.occ s = (st, len) :: rest →
      re2_replace_impl true s (.handle re) rw0 (some l)
        = .replaced (if opts.global then applyOccs s rw0 0 ((st, len) :: rest)
            else s.take st ++ rw0 (st, len) ++ s.drop (st + len))) := by
  constructor
  · intro hocc
    by_cases hg : opts.global <;>
      simp [re2_replace_impl, hok, hp, hg, RE2.Replace, RE2.GlobalReplace, hocc]
  · intro st len rest hocc
    by_cases hg : opts.global
    · simp [re2_replace_impl, hok, hp, hg, RE2.GlobalReplace, hocc, rres]
    · simp [re2_replace_impl, hok, hp, hg, RE2.Replace, hocc, rres, applyOccs]

/-- C9 (witness): the dispatch at concrete inputs — no occurrence gives
the bare error atom; without `global` only the first of two occurrences is
substituted; with `global` both are. -/
theorem c9_replace_dispatch_witness :
    re2_replace_impl true [97, 98, 99] (.handle egNoOcc) (fun _ => [120])
      (some []) = .error_atom ∧
    re2_replace_impl true [97, 98, 99] (.handle egRepl) (fun _ => [120])
      (some []) = .replaced [120, 98, 99] ∧
    re2_replace_impl true [97, 98, 99] (.handle egRepl) (fun _ => [120])
      (some [Term.atom "global"]) = .replaced [120, 98, 120] := by
  refine ⟨?_, ?_, ?_⟩
  · exact (c9_replace_dispatch egNoOcc [97, 98, 99] (fun _ => [120]) [] {}
      rfl rfl).1 rfl
  · exact (c9_replace_dispatch egRepl [97, 98, 99] (fun _ => [120]) [] {}
      rfl rfl).2 0 1 [(2, 1)] rfl
  · exact (c9_replace_dispatch egRepl [97, 98, 99] (fun _ => [120])
      [Term.atom "global"] { global := true } rfl rfl).2 0 1 [(2, 1)] rfl

/-- C10: an INDEX-shape capture value is the placeholder pair `{-1, 0}`
exactly when the slot's text is empty, so a group that participated with
an empty match and a group that did not participate at all (a null slot)
shape to the same value in either shape — the two are indistinguishable in
the result. -/
theorem c10_empty_indistinguishable (alloc : Nat → Bool) (k : Nat)
    (s : List Nat) (m1 m2 : StringPiece) (ct : capture_type)
    (h1 : m1.len = 0) (h2 : m2.len = 0) :
    ((mres alloc k s m1 .CT_INDEX).1 = Term.tuple [Term.int (-1), Term.int 0]) ∧
    (∀ m : StringPiece, (mres alloc k s m .CT_INDEX).1
        = Term.tuple [Term.int (-1), Term.int 0] ↔ m.len = 0) ∧
    (mres alloc k s m1 ct).1 = (mres alloc k s m2 ct).1 := by
  refine ⟨by simp [mres, h1], ?_, ?_⟩
  · intro m
    constructor
    · intro hm
      by_contra hne
      simp [mres, hne] at hm
    · intro hm
      simp [mres, hm]
  · cases ct <;> simp [mres, h1, h2, extract]

/-- C10 (witness): a zero-length participating slot at offset 3 shapes to
the INDEX placeholder and to the same BINARY value as the null slot. -/
theorem c10_empty_indistinguishable_witness :
    (mres (fun _ => true) 0 [97] { isNull := false, off := 3, len := 0 }
      .CT_INDEX).1 = Term.tuple [Term.int (-1), Term.int 0] ∧
    (mres (fun _ => true) 0 [97] { isNull := false, off := 3, len := 0 }
      .CT_BINARY).1 = (mres (fun _ => true) 0 [97] sp_empty .CT_BINARY).1 := by
  have h := c10_empty_indistinguishable (fun _ => true) 0 [97]
    { isNull := false, off := 3, len := 0 } sp_empty .CT_BINARY rfl rfl
  exact ⟨h.1, h.2.2⟩
